import Mathlib

/-!
Shallow embedding of the GCPBucketOps object-lifecycle core.

Sources embedded (paths within the repository):
  src/api/v1/file/enums.py        — FileStatusEnum, ContentType (with file_extension)
  src/api/v1/file/exceptions.py   — the typed exception classes and their base kinds
  src/api/v1/file/models/file.py  — FileModel and FileModel.create
  src/api/v1/file/services/file.py — FileService.upload / delete / generate_url /
                                     signed_upload_url / get_all_expired / remove_all_expired
  src/core/gcs.py                 — upload_to_gcs
  src/core/scheduler.py           — Scheduler.delete_old_files

Modelling conventions:
  * Time is a Nat count of seconds; `datetime.now(timezone.utc)` is a parameter `now`
    of each operation, and no time passes inside one operation, so the DB server
    default `func.now()` for `created_at` (evaluated at row insertion) reads the same
    logical instant as the application clock used inside the same operation.
  * The blob store is the list of blob names present in the single configured bucket
    (set semantics: a write of an existing name leaves membership unchanged).
  * The metadata store is the list of rows of the `files` table in insertion order;
    `session.scalar(select(...))` is `List.find?` (first matching row).
  * `uuid.uuid4()` is modelled by an explicit fresh-id parameter.
  * A backend call that can raise an unexpected exception takes a Bool fault flag
    (`true` = the call succeeds, `false` = it raises); the Python `except Exception`
    handlers are modelled faithfully on both values of the flag.
-/

namespace GCPBucketOps

/-- Configuration value `gcs_settings.BUCKET_NAME` (src/core/gcs.py). The concrete
string is deployment configuration; no claim depends on its value. -/
def BUCKET_NAME : String := "gcp-bucket-ops"

/-- Configuration value `gcs_settings.EXPIRATION_SECONDS` used for signed URLs. -/
def EXPIRATION_SECONDS : Nat := 3600

/-- Python `timedelta(days=7)` in seconds. -/
def SEVEN_DAYS : Nat := 7 * 86400

/-- FileStatusEnum from src/api/v1/file/enums.py. -/
inductive FileStatusEnum
  | PENDING
  | UPLOADED
  | EXPIRED
  | DELETED
deriving DecidableEq, Repr, BEq

/-- ContentType from src/api/v1/file/enums.py: the MIME-type enum, which the
services refer to under the alias ContentTypeEnum. -/
inductive ContentType
  | JPEG | PNG | GIF | BMP | SVG | WEBP | TIFF
  | MP3 | WAV | OGG | AAC | FLAC
  | MP4 | MPEG | OGG_VIDEO | WEBM | AVI
  | PLAIN | HTML | CSS | CSV | XML | JAVASCRIPT
  | JSON | PDF | ZIP | GZIP | TAR | RAR | MSWORD | EXCEL | POWERPOINT
  | DOCX | XLSX | PPTX
  | OCTET_STREAM
deriving DecidableEq, Repr, BEq

/-- The MIME string value of each ContentType member (enums.py). -/
def ContentType.value : ContentType → String
  | .JPEG => "image/jpeg"
  | .PNG => "image/png"
  | .GIF => "image/gif"
  | .BMP => "image/bmp"
  | .SVG => "image/svg+xml"
  | .WEBP => "image/webp"
  | .TIFF => "image/tiff"
  | .MP3 => "audio/mpeg"
  | .WAV => "audio/wav"
  | .OGG => "audio/ogg"
  | .AAC => "audio/aac"
  | .FLAC => "audio/flac"
  | .MP4 => "video/mp4"
  | .MPEG => "video/mpeg"
  | .OGG_VIDEO => "video/ogg"
  | .WEBM => "video/webm"
  | .AVI => "video/x-msvideo"
  | .PLAIN => "text/plain"
  | .HTML => "text/html"
  | .CSS => "text/css"
  | .CSV => "text/csv"
  | .XML => "text/xml"
  | .JAVASCRIPT => "text/javascript"
  | .JSON => "application/json"
  | .PDF => "application/pdf"
  | .ZIP => "application/zip"
  | .GZIP => "application/gzip"
  | .TAR => "application/x-tar"
  | .RAR => "application/vnd.rar"
  | .MSWORD => "application/msword"
  | .EXCEL => "application/vnd.ms-excel"
  | .POWERPOINT => "application/vnd.ms-powerpoint"
  | .DOCX => "application/vnd.openxmlformats-officedocument.wordprocessingml.document"
  | .XLSX => "application/vnd.openxmlformats-officedocument.spreadsheetml.sheet"
  | .PPTX => "application/vnd.openxmlformats-officedocument.presentationml.presentation"
  | .OCTET_STREAM => "application/octet-stream"

/-- ContentType.file_extension (enums.py): `mapping.get(self.value, "")`. Every
member's MIME value is a key of the mapping, so the `""` default is unreachable;
the per-member extension below is the mapping entry for that member's value. -/
def ContentType.file_extension : ContentType → String
  | .JPEG => ".jpg"
  | .PNG => ".png"
  | .GIF => ".gif"
  | .BMP => ".bmp"
  | .SVG => ".svg"
  | .WEBP => ".webp"
  | .TIFF => ".tiff"
  | .MP3 => ".mp3"
  | .WAV => ".wav"
  | .OGG => ".ogg"
  | .AAC => ".aac"
  | .FLAC => ".flac"
  | .MP4 => ".mp4"
  | .MPEG => ".mpeg"
  | .OGG_VIDEO => ".ogv"
  | .WEBM => ".webm"
  | .AVI => ".avi"
  | .PLAIN => ".txt"
  | .HTML => ".html"
  | .CSS => ".css"
  | .CSV => ".csv"
  | .XML => ".xml"
  | .JAVASCRIPT => ".js"
  | .JSON => ".json"
  | .PDF => ".pdf"
  | .ZIP => ".zip"
  | .GZIP => ".gz"
  | .TAR => ".tar"
  | .RAR => ".rar"
  | .MSWORD => ".doc"
  | .EXCEL => ".xls"
  | .POWERPOINT => ".ppt"
  | .DOCX => ".docx"
  | .XLSX => ".xlsx"
  | .PPTX => ".pptx"
  | .OCTET_STREAM => ".bin"

/-- The typed exceptions of src/api/v1/file/exceptions.py, plus `rawException` for
an exception that escapes without being wrapped by any service handler. -/
inductive Exc
  | GCSFileExistsException
  | DBFileExistsException
  | GCSFileDoesNotExistsException
  | DBFileDoesNotExistsException
  | GCSUploadException
  | GCSRemoveException
  | GenerateURLException
  | rawException
deriving DecidableEq, Repr, BEq

/-- Error taxonomy of src/core/exceptions.py as used by exceptions.py: base classes
AlreadyExistsError, NotFoundError, ServiceUnavailable; `unwrapped` marks an
exception that reaches the caller without a service-level wrapper. -/
inductive ErrKind
  | alreadyExists
  | notFound
  | unauthorized
  | unavailable
  | unwrapped
deriving DecidableEq, Repr, BEq

/-- Kind of each exception, from the subclassing in exceptions.py. -/
def Exc.kind : Exc → ErrKind
  | .GCSFileExistsException => .alreadyExists
  | .DBFileExistsException => .alreadyExists
  | .GCSFileDoesNotExistsException => .notFound
  | .DBFileDoesNotExistsException => .notFound
  | .GCSUploadException => .unavailable
  | .GCSRemoveException => .unavailable
  | .GenerateURLException => .unavailable
  | .rawException => .unwrapped

/-- A row of the `files` table (FileModel, src/api/v1/file/models/file.py).
`gcs_uri` is Option because the in-memory object may hold None when
`upload_to_gcs` swallowed a failure and returned None (the column itself is
declared non-nullable, enforced only at flush time). -/
structure FileRecord where
  id : Nat
  file_name : String
  gcs_uri : Option String
  bucket_name : String
  size : Option Nat
  content_type : Option String
  public_url : Option String
  version : Option String
  created_at : Nat
  expires_at : Nat
  deleted_at : Option Nat
  status : FileStatusEnum
deriving DecidableEq, Repr

/-- FileModel.create (models/file.py): generates a fresh id, sets
`expires_at = datetime.now(utc) + timedelta(days=7)` from the application clock,
and leaves `created_at` to the server default `func.now()`, which under the
single-instant convention reads the same `now`; `deleted_at` starts null. -/
def FileModel.create (now : Nat) (newId : Nat) (file_name : String)
    (gcs_uri : Option String) (bucket_name : String) (status : FileStatusEnum)
    (size : Option Nat) (content_type : Option String) (public_url : Option String)
    (version : Option String) : FileRecord :=
  { id := newId
    file_name := file_name
    gcs_uri := gcs_uri
    bucket_name := bucket_name
    size := size
    content_type := content_type
    public_url := public_url
    version := version
    created_at := now
    expires_at := now + SEVEN_DAYS
    deleted_at := none
    status := status }

/-- Combined backend state: blob names present in the bucket, and the rows of the
`files` table in insertion order. -/
structure SysState where
  gcs : List String
  db : List FileRecord
deriving DecidableEq, Repr

/-- Write a blob name into the bucket (set semantics). -/
def gcsInsert (gcs : List String) (name : String) : List String :=
  if gcs.contains name then gcs else gcs ++ [name]

/-- upload_to_gcs (src/core/gcs.py). On success it writes the blob and returns the
`gs://bucket/name` URI. Its `except Exception` clause logs at critical severity
and falls through WITHOUT re-raising, so on a failed write it returns Python
None (here `none`) and the blob is not written — despite the docstring's claim
that the exception is propagated. -/
def upload_to_gcs (gcs : List String) (destination_blob_name : String)
    (writeOk : Bool) : List String × Option String :=
  if writeOk then
    (gcsInsert gcs destination_blob_name,
     some ("gs://" ++ BUCKET_NAME ++ "/" ++ destination_blob_name))
  else (gcs, none)

/-- The argument of FileService.upload: FastAPI UploadFile's fields used by the
service (filename, size, content_type). -/
structure UploadFile where
  filename : String
  size : Option Nat
  content_type : Option String
deriving DecidableEq, Repr

/-- The live-row query used by upload and delete:
select(FileModel).where(file_name == name, deleted_at IS NULL, bucket_name == bucket)
consumed with `session.scalar`, i.e. the first matching row. -/
def findLive (db : List FileRecord) (name : String) (bucket : String) :
    Option FileRecord :=
  db.find? fun r => r.file_name == name && r.deleted_at == none && r.bucket_name == bucket

/-- Backend-access events, used to record the order in which FileService.upload
touches the two stores. -/
inductive Ev
  | gcsExists (name : String)
  | dbLiveQuery (name : String)
  | gcsWrite (name : String)
  | dbInsert (name : String) (status : FileStatusEnum)
  | auditLog (event_type : String) (file_name : String)
deriving DecidableEq, Repr

/-- Result of FileService.upload: the returned value or raised exception, the
resulting backend state, and the trace of backend accesses in order. -/
structure UploadOut where
  res : Except Exc FileRecord
  st : SysState
  tr : List Ev
deriving Repr

/-- FileService.upload (services/file.py), step by step:
1. `client.bucket(BUCKET_NAME).blob(filename).exists(client)` — if the blob is
   present, raise GCSFileExistsException.
2. `session.scalar(select(FileModel).where(file_name, deleted_at IS NULL,
   bucket_name))` — if a live row exists, raise DBFileExistsException.
3. `upload_to_gcs(file.file, file.filename)` — never raises (its handler
   swallows); on a failed write it returns None.
4. `FileModel.create(..., status=UPLOADED)` and `session.add` — stages the row.
5. `await firestore_logger.log_event(...)` — if the Firestore write raises
   (`auditOk = false`), the exception is caught by the service's generic
   `except Exception` handler and re-raised as GCSUploadException; otherwise the
   created record is returned.
The two typed exceptions are re-raised unchanged by the first `except` clause. -/
def FileService.upload (st : SysState) (now : Nat) (newId : Nat) (file : UploadFile)
    (gcsWriteOk : Bool) (auditOk : Bool) : UploadOut :=
  if st.gcs.contains file.filename then
    { res := .error .GCSFileExistsException, st := st,
      tr := [.gcsExists file.filename] }
  else
    match findLive st.db file.filename BUCKET_NAME with
    | some _ =>
        { res := .error .DBFileExistsException, st := st,
          tr := [.gcsExists file.filename, .dbLiveQuery file.filename] }
    | none =>
        let written := upload_to_gcs st.gcs file.filename gcsWriteOk
        let file_obj := FileModel.create now newId file.filename written.2
          BUCKET_NAME .UPLOADED file.size file.content_type none (some "0.0.1")
        let st' : SysState := { gcs := written.1, db := st.db ++ [file_obj] }
        let tr := [.gcsExists file.filename, .dbLiveQuery file.filename,
                   .gcsWrite file.filename,
                   .dbInsert file.filename FileStatusEnum.UPLOADED,
                   .auditLog "UPLOAD" file.filename]
        if auditOk then { res := .ok file_obj, st := st', tr := tr }
        else { res := .error .GCSUploadException, st := st', tr := tr }

/-- The blob key targeted by delete and generate_url:
`file_name = f"{file_name}{content_type.file_extension()}"`. -/
def fullName (file_name : String) (content_type : ContentType) : String :=
  file_name ++ content_type.file_extension

/-- The in-place update performed by FileService.delete on the row returned by
`session.scalar` (the first live row matching the key): set status DELETED and
stamp deleted_at. Rows with deleted_at already set never match the query. -/
def markDeletedFirst (db : List FileRecord) (name : String) (bucket : String)
    (now : Nat) : List FileRecord :=
  match db with
  | [] => []
  | r :: rest =>
      if r.file_name == name && r.deleted_at == none && r.bucket_name == bucket then
        { r with status := .DELETED, deleted_at := some now } :: rest
      else r :: markDeletedFirst rest name bucket now

/-- FileService.delete (services/file.py):
1. append the content-type extension to the name;
2. `blob.exists()` — absent raises GCSFileDoesNotExistsException;
3. `blob.delete()` — the blob is removed from the bucket;
4. look up the live row by (file_name, deleted_at IS NULL, bucket_name); if found,
   set status=DELETED and deleted_at=now and return the success message, else
   raise DBFileDoesNotExistsException (the blob is already gone at this point). -/
def FileService.delete (st : SysState) (now : Nat) (file_name : String)
    (content_type : ContentType) : Except Exc String × SysState :=
  let fn := fullName file_name content_type
  if st.gcs.contains fn then
    let gcs' := st.gcs.filter fun b => b != fn
    match findLive st.db fn BUCKET_NAME with
    | some _ =>
        (.ok ("File \x27" ++ fn ++ "\x27 deleted successfully."),
         { gcs := gcs', db := markDeletedFirst st.db fn BUCKET_NAME now })
    | none => (.error .DBFileDoesNotExistsException, { gcs := gcs', db := st.db })
  else (.error .GCSFileDoesNotExistsException, st)

/-- A V4 signed URL as issued by `blob.generate_signed_url`: determined by the blob
name it is bound to, the HTTP method, and the expiration window in seconds. -/
structure SignedURL where
  blob_name : String
  method : String
  expiration : Nat
  content_type : Option String
deriving DecidableEq, Repr

/-- Model of `blob.generate_signed_url(version="v4", expiration, method, ...)`. -/
def Blob.generate_signed_url (blob_name : String) (expiration : Nat)
    (method : String) (content_type : Option String) : SignedURL :=
  { blob_name := blob_name, method := method, expiration := expiration,
    content_type := content_type }

/-- DownloadURLResponse (schemas/response.py): the signed URL and its validity. -/
structure DownloadURLResponse where
  download_url : SignedURL
  valid_for_seconds : Nat
deriving DecidableEq, Repr

/-- UploadURLResponse (schemas/response.py). -/
structure UploadURLResponse where
  upload_url : SignedURL
  valid_for_seconds : Nat
deriving DecidableEq, Repr

/-- FileService.generate_url (services/file.py): appends the content-type
extension, checks blob existence (absent raises GCSFileDoesNotExistsException),
then signs a GET URL; an unexpected failure of the signing call
(`signOk = false`) is caught by the generic handler and re-raised as
GenerateURLException. -/
def FileService.generate_url (st : SysState) (file_name : String)
    (content_type : ContentType) (signOk : Bool) : Except Exc DownloadURLResponse :=
  let fn := fullName file_name content_type
  if st.gcs.contains fn then
    if signOk then
      .ok { download_url := Blob.generate_signed_url fn EXPIRATION_SECONDS "GET" none,
            valid_for_seconds := EXPIRATION_SECONDS }
    else .error .GenerateURLException
  else .error .GCSFileDoesNotExistsException

/-- FileService.signed_upload_url (services/file.py): signs a PUT URL bound to the
given content type, touching neither store. The method has NO try/except, so an
unexpected failure of the signing call propagates to the caller unwrapped
(`rawException`), not as a ServiceUnavailable kind. -/
def FileService.signed_upload_url (file_name : String) (content_type : ContentType)
    (signOk : Bool) : Except Exc UploadURLResponse :=
  if signOk then
    .ok { upload_url := Blob.generate_signed_url file_name EXPIRATION_SECONDS "PUT"
            (some content_type.value),
          valid_for_seconds := EXPIRATION_SECONDS }
  else .error .rawException

/-- The expiry scan used by get_all_expired and by the scheduler:
`expires_at < now AND deleted_at IS NULL`. -/
def expiredQuery (db : List FileRecord) (now : Nat) : List FileRecord :=
  db.filter fun r => decide (r.expires_at < now) && r.deleted_at == none

/-- FileService.remove_all_expired (services/file.py): for every row whose id is in
the given list — the query filters by `id.in_(expired_files)` only, with no
deleted_at guard — set status=DELETED and deleted_at=now. -/
def FileService.remove_all_expired (db : List FileRecord) (expired_files : List Nat)
    (now : Nat) : List FileRecord :=
  db.map fun r =>
    if expired_files.contains r.id then
      { r with status := .DELETED, deleted_at := some now }
    else r

/-- FileService.get_all_expired (services/file.py): run the expiry scan, pass the
ids of the returned rows to remove_all_expired, and return the expired rows. -/
def FileService.get_all_expired (st : SysState) (now : Nat) :
    SysState × List FileRecord :=
  let expired := expiredQuery st.db now
  ({ st with
      db := FileService.remove_all_expired st.db (expired.map (·.id)) now },
   expired)

/-- Log entries emitted by the scheduler via background_logger. -/
inductive Log
  | warning (msg : String)
  | error (msg : String)
deriving DecidableEq, Repr

/-- The message logged by Scheduler.delete_old_files's `except Exception` handler
when the loop body raises: iterating over `select(FileModel.file_name)` yields
plain strings, and `file.status = FileStatusEnum.DELETED` on a Python str raises
AttributeError. -/
def schedulerAttrError : String :=
  "An error occurred when deleting expired files from GCS: " ++
  "AttributeError: \x27str\x27 object has no attribute \x27status\x27"

/-- Scheduler.delete_old_files (src/core/scheduler.py), modelled faithfully to the
code as written. The query is `select(FileModel.file_name).where(expires_at < now,
deleted_at IS NULL)`, so `files.all()` is a list of STRINGS in row order. For the
first file the loop checks `blob.exists()` and either deletes the blob or logs
the orphan warning; it then executes `file.status = FileStatusEnum.DELETED`,
which raises AttributeError because `file` is a str, aborting the loop; the
outer `except Exception` logs the error and returns. Hence: no database row is
ever updated, at most the first expired row's blob is handled, and later rows
are never reached. (With no expired rows the loop body never runs and the pass
returns normally.) -/
def Scheduler.delete_old_files (st : SysState) (now : Nat) : SysState × List Log :=
  let files := (expiredQuery st.db now).map (·.file_name)
  match files with
  | [] => (st, [])
  | f :: _ =>
      if st.gcs.contains f then
        ({ st with gcs := st.gcs.filter fun b => b != f },
         [.error schedulerAttrError])
      else
        (st, [.warning (f ++ " is not found in GCS but exists in our db."),
              .error schedulerAttrError])

/-! Helper lemmas shared by several claim proofs. -/

theorem contains_append_singleton (l : List String) (x : String) :
    (l ++ [x]).contains x = true := by
  simp [List.elem_iff]

theorem contains_filter_ne (l : List String) (x : String) :
    ((l.filter fun b => b != x).contains x) = false := by
  simp [List.elem_iff]

theorem markDeletedFirst_cons (hd : FileRecord) (rest : List FileRecord)
    (n b : String) (t : Nat) :
    markDeletedFirst (hd :: rest) n b t =
      if hd.file_name == n && hd.deleted_at == none && hd.bucket_name == b then
        { hd with status := .DELETED, deleted_at := some t } :: rest
      else hd :: markDeletedFirst rest n b t := rfl

theorem markDeletedFirst_length (db : List FileRecord) (n b : String) (t : Nat) :
    (markDeletedFirst db n b t).length = db.length := by
  induction db with
  | nil => rfl
  | cons r rest ih =>
      unfold markDeletedFirst
      split <;> simp [ih]

/-- C9's preservation relation: no row disappears, and the deleted_at of any row
already soft-deleted keeps its exact value (position-wise, since no operation
reorders the table). -/
def deletedPreserved (db db' : List FileRecord) : Prop :=
  db.length ≤ db'.length ∧
  ∀ i : Nat, ∀ r r' : FileRecord, db[i]? = some r → db'[i]? = some r' →
    r.deleted_at ≠ none → r'.deleted_at = r.deleted_at

theorem deletedPreserved_refl (db : List FileRecord) : deletedPreserved db db :=
  ⟨Nat.le_refl _, fun _ r r' h1 h2 _ => by
    rw [h1] at h2; exact (Option.some.inj h2).symm ▸ rfl⟩

theorem deletedPreserved_append (db l : List FileRecord) :
    deletedPreserved db (db ++ l) := by
  refine ⟨by simp, fun i r r' h1 h2 _ => ?_⟩
  have hi : i < db.length := by
    by_contra hlt
    rw [List.getElem?_eq_none (Nat.le_of_not_lt hlt)] at h1
    exact Option.noConfusion h1
  rw [List.getElem?_append_left hi, h1] at h2
  rw [Option.some.inj h2]

theorem deletedPreserved_map (db : List FileRecord) (f : FileRecord → FileRecord)
    (hf : ∀ r ∈ db, r.deleted_at ≠ none → f r = r) :
    deletedPreserved db (db.map f) := by
  refine ⟨by simp, fun i r r' h1 h2 hne => ?_⟩
  rw [List.getElem?_map, h1] at h2
  have hr : r ∈ db := List.mem_iff_getElem?.mpr ⟨i, h1⟩
  have hr' : r' = f r := by simpa using h2.symm
  rw [hr', hf r hr hne]

theorem deletedPreserved_markDeletedFirst (db : List FileRecord) (n b : String)
    (t : Nat) : deletedPreserved db (markDeletedFirst db n b t) := by
  refine ⟨Nat.le_of_eq (markDeletedFirst_length db n b t).symm, ?_⟩
  induction db with
  | nil => intro i r r' h1; exact absurd h1 (by simp)
  | cons hd rest ih =>
      intro i r r' h1 h2 hne
      by_cases hc : (hd.file_name == n && hd.deleted_at == none
          && hd.bucket_name == b) = true
      · have he : markDeletedFirst (hd :: rest) n b t
            = { hd with status := .DELETED, deleted_at := some t } :: rest := by
          rw [markDeletedFirst_cons, if_pos hc]
        rw [he] at h2
        match i with
        | 0 =>
            exfalso
            have hdel : (hd.deleted_at == none) = true := by
              have hx := (Bool.and_eq_true ..).mp hc
              exact ((Bool.and_eq_true ..).mp hx.1).2
            have h0 : hd = r := by
              simpa using h1
            exact hne (h0 ▸ (by simpa using hdel))
        | Nat.succ m =>
            simp only [List.getElem?_cons_succ] at h1 h2
            rw [h1] at h2
            rw [Option.some.inj h2]
      · rw [Bool.not_eq_true] at hc
        have he : markDeletedFirst (hd :: rest) n b t
            = hd :: markDeletedFirst rest n b t := by
          have hnotc : ¬ ((hd.file_name == n && hd.deleted_at == none
              && hd.bucket_name == b) = true) := fun hcc => by
            rw [hc] at hcc; exact Bool.noConfusion hcc
          rw [markDeletedFirst_cons, if_neg hnotc]
        rw [he] at h2
        match i with
        | 0 =>
            have hr : hd = r := by simpa using h1
            have hr' : hd = r' := by simpa using h2
            rw [← hr, ← hr']
        | Nat.succ m =>
            simp only [List.getElem?_cons_succ] at h1 h2
            exact ih m r r' h1 h2 hne

theorem scheduler_db_unchanged (st : SysState) (now : Nat) :
    (Scheduler.delete_old_files st now).1.db = st.db := by
  unfold Scheduler.delete_old_files
  cases hq : (expiredQuery st.db now).map (fun r => r.file_name) with
  | nil => simp [hq]
  | cons f rest =>
      simp only [hq]
      split <;> rfl

/-- The record staged by a successful pass through upload's steps 3-4 (the
let-bound file_obj of FileService.upload). -/
def uploadRecord (st : SysState) (now newId : Nat) (file : UploadFile)
    (gcsWriteOk : Bool) : FileRecord :=
  FileModel.create now newId file.filename
    (upload_to_gcs st.gcs file.filename gcsWriteOk).2 BUCKET_NAME .UPLOADED
    file.size file.content_type none (some "0.0.1")

theorem upload_gcs_conflict (st : SysState) (now newId : Nat) (file : UploadFile)
    (g a : Bool) (hc : st.gcs.contains file.filename = true) :
    (FileService.upload st now newId file g a).res
      = .error Exc.GCSFileExistsException := by
  unfold FileService.upload
  rw [hc]
  rfl

theorem upload_db_conflict (st : SysState) (now newId : Nat) (file : UploadFile)
    (g a : Bool) (v : FileRecord)
    (hc : st.gcs.contains file.filename = false)
    (hf : findLive st.db file.filename BUCKET_NAME = some v) :
    (FileService.upload st now newId file g a).res
      = .error Exc.DBFileExistsException := by
  unfold FileService.upload
  rw [hc, hf]
  rfl

theorem upload_ok_eq (st : SysState) (now newId : Nat) (file : UploadFile)
    (g : Bool)
    (hc : st.gcs.contains file.filename = false)
    (hf : findLive st.db file.filename BUCKET_NAME = none) :
    FileService.upload st now newId file g true =
      { res := .ok (uploadRecord st now newId file g),
        st := { gcs := (upload_to_gcs st.gcs file.filename g).1,
                db := st.db ++ [uploadRecord st now newId file g] },
        tr := [.gcsExists file.filename, .dbLiveQuery file.filename,
               .gcsWrite file.filename,
               .dbInsert file.filename FileStatusEnum.UPLOADED,
               .auditLog "UPLOAD" file.filename] } := by
  unfold FileService.upload
  rw [hc, hf]
  rfl

theorem upload_ok_inv (st : SysState) (now newId : Nat) (file : UploadFile)
    (g a : Bool) (rec : FileRecord)
    (h : (FileService.upload st now newId file g a).res = .ok rec) :
    st.gcs.contains file.filename = false
    ∧ findLive st.db file.filename BUCKET_NAME = none
    ∧ a = true ∧ rec = uploadRecord st now newId file g := by
  by_cases hc : st.gcs.contains file.filename = true
  · rw [upload_gcs_conflict st now newId file g a hc] at h
    exact Except.noConfusion h
  · rw [Bool.not_eq_true] at hc
    cases hfl : findLive st.db file.filename BUCKET_NAME with
    | some v =>
        rw [upload_db_conflict st now newId file g a v hc hfl] at h
        exact Except.noConfusion h
    | none =>
        cases a with
        | false =>
            exfalso
            unfold FileService.upload at h
            rw [hc, hfl] at h
            exact Except.noConfusion h
        | true =>
            rw [upload_ok_eq st now newId file g hc hfl] at h
            exact ⟨hc, rfl, rfl, (Except.ok.inj h).symm⟩

theorem delete_eq_blob_missing (st : SysState) (now : Nat) (nm : String)
    (ct : ContentType) (hb : st.gcs.contains (fullName nm ct) = false) :
    FileService.delete st now nm ct
      = (.error Exc.GCSFileDoesNotExistsException, st) := by
  simp only [FileService.delete]
  rw [hb]
  rfl

theorem delete_eq_found (st : SysState) (now : Nat) (nm : String)
    (ct : ContentType) (v : FileRecord)
    (hb : st.gcs.contains (fullName nm ct) = true)
    (hf : findLive st.db (fullName nm ct) BUCKET_NAME = some v) :
    FileService.delete st now nm ct
      = (.ok ("File \x27" ++ fullName nm ct ++ "\x27 deleted successfully."),
         { gcs := st.gcs.filter fun b => b != fullName nm ct,
           db := markDeletedFirst st.db (fullName nm ct) BUCKET_NAME now }) := by
  simp only [FileService.delete]
  rw [hb, hf]
  rfl

theorem delete_eq_row_missing (st : SysState) (now : Nat) (nm : String)
    (ct : ContentType)
    (hb : st.gcs.contains (fullName nm ct) = true)
    (hf : findLive st.db (fullName nm ct) BUCKET_NAME = none) :
    FileService.delete st now nm ct
      = (.error Exc.DBFileDoesNotExistsException,
         { gcs := st.gcs.filter fun b => b != fullName nm ct, db := st.db }) := by
  simp only [FileService.delete]
  rw [hb, hf]
  rfl

/-! Claim theorems. -/

/-- Expired row whose blob is still in the bucket (used for C1's failing run). -/
def sweepRowA : FileRecord :=
  { id := 1, file_name := "a.pdf", gcs_uri := some ("gs://" ++ BUCKET_NAME ++ "/a.pdf"),
    bucket_name := BUCKET_NAME, size := none, content_type := none,
    public_url := none, version := none, created_at := 0, expires_at := 10,
    deleted_at := none, status := .UPLOADED }

/-- Expired row whose blob was removed out-of-band (orphan metadata, for C1). -/
def sweepRowB : FileRecord :=
  { id := 2, file_name := "b.pdf", gcs_uri := some ("gs://" ++ BUCKET_NAME ++ "/b.pdf"),
    bucket_name := BUCKET_NAME, size := none, content_type := none,
    public_url := none, version := none, created_at := 0, expires_at := 10,
    deleted_at := none, status := .UPLOADED }

/-- C1 evaluated at the spec's own scenario (two expired live rows, one blob
present, one already removed out-of-band), in both row orders. In neither run
does any row end with status DELETED or a deleted_at stamp: the attribute
assignment on the str yielded by `select(FileModel.file_name)` raises on the
first row, the outer handler logs the error, and the pass aborts. When the
blob-present row comes first its blob is deleted and no orphan warning is ever
logged; when the orphan row comes first the warning is logged but the other
row's blob is never deleted. -/
theorem C1_sweep_aborts_without_row_updates :
    ((Scheduler.delete_old_files
        { gcs := ["a.pdf"], db := [sweepRowA, sweepRowB] } 50).1.db.map
          fun r => (r.status, r.deleted_at))
      = [(FileStatusEnum.UPLOADED, none), (FileStatusEnum.UPLOADED, none)]
    ∧ (Scheduler.delete_old_files
        { gcs := ["a.pdf"], db := [sweepRowA, sweepRowB] } 50).1.gcs = []
    ∧ (Scheduler.delete_old_files
        { gcs := ["a.pdf"], db := [sweepRowA, sweepRowB] } 50).2
      = [Log.error schedulerAttrError]
    ∧ ((Scheduler.delete_old_files
        { gcs := ["a.pdf"], db := [sweepRowB, sweepRowA] } 50).1.db.map
          fun r => (r.status, r.deleted_at))
      = [(FileStatusEnum.UPLOADED, none), (FileStatusEnum.UPLOADED, none)]
    ∧ (Scheduler.delete_old_files
        { gcs := ["a.pdf"], db := [sweepRowB, sweepRowA] } 50).1.gcs = ["a.pdf"]
    ∧ (Scheduler.delete_old_files
        { gcs := ["a.pdf"], db := [sweepRowB, sweepRowA] } 50).2
      = [Log.warning "b.pdf is not found in GCS but exists in our db.",
         Log.error schedulerAttrError] :=
  ⟨rfl, rfl, rfl, rfl, rfl, rfl⟩

/-- C5: after a successful upload of a name, an immediate second upload of the
same name fails with an AlreadyExists-kind error; the conflict is detected at
the blob store when the first blob write succeeded, and at the live metadata
row when the first blob write was swallowed (blob absent but row live). -/
theorem C5_second_upload_conflicts (st : SysState) (now₁ now₂ newId₁ newId₂ : Nat)
    (file : UploadFile) (g₁ a₁ g₂ a₂ : Bool) (rec : FileRecord)
    (h : (FileService.upload st now₁ newId₁ file g₁ a₁).res = .ok rec) :
    ∃ e : Exc,
      (FileService.upload (FileService.upload st now₁ newId₁ file g₁ a₁).st
          now₂ newId₂ file g₂ a₂).res = .error e
      ∧ e.kind = ErrKind.alreadyExists
      ∧ (g₁ = true → e = Exc.GCSFileExistsException)
      ∧ (g₁ = false → e = Exc.DBFileExistsException) := by
  obtain ⟨hc, hf, ha, hrec⟩ := upload_ok_inv st now₁ newId₁ file g₁ a₁ rec h
  subst ha
  rw [upload_ok_eq st now₁ newId₁ file g₁ hc hf]
  cases g₁ with
  | true =>
      refine ⟨Exc.GCSFileExistsException, ?_, rfl, fun _ => rfl,
        fun hgg => Bool.noConfusion hgg⟩
      apply upload_gcs_conflict
      show ((upload_to_gcs st.gcs file.filename true).1.contains file.filename) = true
      unfold upload_to_gcs gcsInsert
      rw [hc]
      simp [contains_append_singleton]
  | false =>
      refine ⟨Exc.DBFileExistsException, ?_, rfl,
        fun hgg => Bool.noConfusion hgg, fun _ => rfl⟩
      apply upload_db_conflict (v := uploadRecord st now₁ newId₁ file false)
      · show ((upload_to_gcs st.gcs file.filename false).1.contains file.filename)
            = false
        exact hc
      · show findLive (st.db ++ [uploadRecord st now₁ newId₁ file false])
            file.filename BUCKET_NAME = some (uploadRecord st now₁ newId₁ file false)
        unfold findLive at hf ⊢
        rw [List.find?_append, hf]
        simp [uploadRecord, FileModel.create]

/-- Witness for C5: a concrete successful upload followed by a second upload of
the same name, exercised through the theorem. -/
theorem C5_second_upload_conflicts_witness :
    ∃ e : Exc,
      (FileService.upload (FileService.upload { gcs := [], db := [] } 0 1
          { filename := "report.pdf", size := none, content_type := none }
          true true).st 5 2
          { filename := "report.pdf", size := none, content_type := none }
          true true).res = .error e
      ∧ e.kind = ErrKind.alreadyExists
      ∧ (true = true → e = Exc.GCSFileExistsException)
      ∧ (true = false → e = Exc.DBFileExistsException) :=
  C5_second_upload_conflicts { gcs := [], db := [] } 0 5 1 2
    { filename := "report.pdf", size := none, content_type := none }
    true true true true _ rfl

/-- C6: after a delete of (name, content type) succeeds, an immediate second
delete of the same pair fails with a NotFound-kind error (the blob check
fails, since the first call removed the blob); it never succeeds. -/
theorem C6_delete_twice (st : SysState) (now₁ now₂ : Nat) (nm : String)
    (ct : ContentType) (msg : String) (st' : SysState)
    (h : FileService.delete st now₁ nm ct = (.ok msg, st')) :
    (FileService.delete st' now₂ nm ct).1
      = .error Exc.GCSFileDoesNotExistsException
    ∧ Exc.kind .GCSFileDoesNotExistsException = ErrKind.notFound := by
  by_cases hb : st.gcs.contains (fullName nm ct) = true
  · cases hfl : findLive st.db (fullName nm ct) BUCKET_NAME with
    | some v =>
        rw [delete_eq_found st now₁ nm ct v hb hfl] at h
        have hst : st' = { gcs := st.gcs.filter fun b => b != fullName nm ct,
                           db := markDeletedFirst st.db (fullName nm ct)
                             BUCKET_NAME now₁ } :=
          ((Prod.mk.injEq ..).mp h).2.symm
        subst hst
        rw [delete_eq_blob_missing _ now₂ nm ct (contains_filter_ne st.gcs _)]
        exact ⟨rfl, rfl⟩
    | none =>
        rw [delete_eq_row_missing st now₁ nm ct hb hfl] at h
        exact absurd ((Prod.mk.injEq ..).mp h).1 (by simp)
  · rw [Bool.not_eq_true] at hb
    rw [delete_eq_blob_missing st now₁ nm ct hb] at h
    exact absurd ((Prod.mk.injEq ..).mp h).1 (by simp)

/-- Witness for C6: a concrete successful delete followed by a second delete. -/
theorem C6_delete_twice_witness :
    (FileService.delete
        (FileService.delete
          { gcs := ["a.pdf"],
            db := [{ id := 1, file_name := "a.pdf", gcs_uri := none,
                     bucket_name := BUCKET_NAME, size := none, content_type := none,
                     public_url := none, version := none, created_at := 0,
                     expires_at := 10, deleted_at := none,
                     status := .UPLOADED }] } 9 "a" .PDF).2 10 "a" .PDF).1
      = .error Exc.GCSFileDoesNotExistsException
    ∧ Exc.kind .GCSFileDoesNotExistsException = ErrKind.notFound :=
  C6_delete_twice
    { gcs := ["a.pdf"],
      db := [{ id := 1, file_name := "a.pdf", gcs_uri := none,
               bucket_name := BUCKET_NAME, size := none, content_type := none,
               public_url := none, version := none, created_at := 0,
               expires_at := 10, deleted_at := none, status := .UPLOADED }] }
    9 10 "a" .PDF _ _ rfl

/-- C8: a delete call finding the blob present but no live metadata row fails
with the NotFound-kind DBFileDoesNotExistsException, the blob is already gone
from the store by the time the error is raised, and the metadata rows are
untouched by the failed call. -/
theorem C8_delete_orphan_blob_window (st : SysState) (now : Nat) (nm : String)
    (ct : ContentType)
    (hb : st.gcs.contains (fullName nm ct) = true)
    (hf : findLive st.db (fullName nm ct) BUCKET_NAME = none) :
    (FileService.delete st now nm ct).1 = .error Exc.DBFileDoesNotExistsException
    ∧ Exc.kind .DBFileDoesNotExistsException = ErrKind.notFound
    ∧ (FileService.delete st now nm ct).2.gcs.contains (fullName nm ct) = false
    ∧ (FileService.delete st now nm ct).2.db = st.db := by
  rw [delete_eq_row_missing st now nm ct hb hf]
  exact ⟨rfl, rfl, contains_filter_ne st.gcs _, rfl⟩

/-- Witness for C8: blob present under "a.pdf" with no live row. -/
theorem C8_delete_orphan_blob_window_witness :
    (FileService.delete { gcs := ["a.pdf"], db := [] } 3 "a" .PDF).1
      = .error Exc.DBFileDoesNotExistsException
    ∧ Exc.kind .DBFileDoesNotExistsException = ErrKind.notFound
    ∧ (FileService.delete { gcs := ["a.pdf"], db := [] } 3 "a" .PDF).2.gcs.contains
        (fullName "a" .PDF) = false
    ∧ (FileService.delete { gcs := ["a.pdf"], db := [] } 3 "a" .PDF).2.db = [] :=
  C8_delete_orphan_blob_window { gcs := ["a.pdf"], db := [] } 3 "a" .PDF rfl rfl

/-- C2: every FileRecord produced by a successful upload has
expires_at = created_at + 7 days exactly. -/
theorem C2_fresh_record_expiry (st : SysState) (now newId : Nat) (file : UploadFile)
    (gcsWriteOk auditOk : Bool) (rec : FileRecord)
    (h : (FileService.upload st now newId file gcsWriteOk auditOk).res = .ok rec) :
    rec.expires_at = rec.created_at + SEVEN_DAYS := by
  unfold FileService.upload at h
  split at h
  · exact absurd h (by simp)
  · split at h
    · exact absurd h (by simp)
    · split at h
      · simp only [Except.ok.injEq] at h
        subst h
        rfl
      · exact absurd h (by simp)

/-- Witness for C2 at a concrete successful upload. -/
theorem C2_fresh_record_expiry_witness :
    (FileModel.create 0 1 "report.pdf"
        (some ("gs://" ++ BUCKET_NAME ++ "/report.pdf")) BUCKET_NAME .UPLOADED
        (some 1024) (some "application/pdf") none (some "0.0.1")).expires_at
    = (FileModel.create 0 1 "report.pdf"
        (some ("gs://" ++ BUCKET_NAME ++ "/report.pdf")) BUCKET_NAME .UPLOADED
        (some 1024) (some "application/pdf") none (some "0.0.1")).created_at
      + SEVEN_DAYS :=
  C2_fresh_record_expiry { gcs := [], db := [] } 0 1
    { filename := "report.pdf", size := some 1024,
      content_type := some "application/pdf" } true true _ rfl

/-- C3 counterexample: with both checks passing and the blob write succeeding, a
failing audit emission makes upload raise GCSUploadException instead of
returning the created record — the audit failure IS surfaced as an upload
error, refuting the claim as stated. -/
theorem C3_counterexample :
    (FileService.upload { gcs := [], db := [] } 0 1
        { filename := "report.pdf", size := some 1024,
          content_type := some "application/pdf" } true false).res
      = .error Exc.GCSUploadException :=
  rfl

/-- C3 amended: when both backend checks pass, a failure raised by the audit-event
emission is caught by the generic handler and re-raised as the Unavailable-kind
GCSUploadException; the upload fails rather than returning the created record. -/
theorem C3_amended_audit_failure (st : SysState) (now newId : Nat)
    (file : UploadFile) (gcsWriteOk : Bool)
    (h1 : st.gcs.contains file.filename = false)
    (h2 : findLive st.db file.filename BUCKET_NAME = none) :
    (FileService.upload st now newId file gcsWriteOk false).res
      = .error Exc.GCSUploadException
    ∧ Exc.kind .GCSUploadException = .unavailable := by
  unfold FileService.upload
  rw [h1, h2]
  exact ⟨rfl, rfl⟩

/-- Witness for the amended C3 at a concrete input. -/
theorem C3_amended_audit_failure_witness :
    (FileService.upload { gcs := [], db := [] } 7 2
        { filename := "notes.txt", size := none, content_type := none }
        true false).res = .error Exc.GCSUploadException
    ∧ Exc.kind .GCSUploadException = .unavailable :=
  C3_amended_audit_failure { gcs := [], db := [] } 7 2
    { filename := "notes.txt", size := none, content_type := none } true rfl rfl

/-- C4 at its failing inputs: (1) when the blob write raises, upload_to_gcs
swallows the exception and returns None, so upload returns a SUCCESS record
whose gcs_uri is None and no blob exists — no Unavailable error is raised,
contradicting upload_to_gcs's own docstring ("propagates the exception if
upload fails"); (2) signed_upload_url has no handler at all, so a signing
failure propagates unwrapped rather than as an Unavailable kind. -/
theorem C4_unavailable_wrapping_gaps :
    (FileService.upload { gcs := [], db := [] } 0 1
        { filename := "report.pdf", size := some 1024,
          content_type := some "application/pdf" } false true).res
      = .ok (FileModel.create 0 1 "report.pdf" none BUCKET_NAME .UPLOADED
          (some 1024) (some "application/pdf") none (some "0.0.1"))
    ∧ (FileModel.create 0 1 "report.pdf" none BUCKET_NAME .UPLOADED
        (some 1024) (some "application/pdf") none (some "0.0.1")).gcs_uri = none
    ∧ (FileService.upload { gcs := [], db := [] } 0 1
        { filename := "report.pdf", size := some 1024,
          content_type := some "application/pdf" } false true).st.gcs = []
    ∧ FileService.signed_upload_url "report.pdf" .PDF false
        = .error Exc.rawException
    ∧ Exc.kind .rawException ≠ ErrKind.unavailable :=
  ⟨rfl, rfl, rfl, rfl, by decide⟩

theorem upload_tr_cases (st : SysState) (now newId : Nat) (file : UploadFile)
    (g a : Bool) :
    (FileService.upload st now newId file g a).tr = [.gcsExists file.filename]
    ∨ (FileService.upload st now newId file g a).tr
      = [.gcsExists file.filename, .dbLiveQuery file.filename]
    ∨ (FileService.upload st now newId file g a).tr
      = [.gcsExists file.filename, .dbLiveQuery file.filename,
         .gcsWrite file.filename, .dbInsert file.filename FileStatusEnum.UPLOADED,
         .auditLog "UPLOAD" file.filename] := by
  unfold FileService.upload
  split
  · exact Or.inl rfl
  · split
    · exact Or.inr (Or.inl rfl)
    · split
      · exact Or.inr (Or.inr rfl)
      · exact Or.inr (Or.inr rfl)

/-- C7: the trace of every upload starts with the blob-store existence check (so
no metadata-store access precedes it); every live-row query is preceded by the
blob check; and every record insertion carries status UPLOADED and is preceded,
in order, by the blob check, the live-row query, and the blob write. -/
theorem C7_upload_step_order (st : SysState) (now newId : Nat) (file : UploadFile)
    (g a : Bool) :
    (FileService.upload st now newId file g a).tr.head?
      = some (Ev.gcsExists file.filename)
    ∧ (∀ i : Nat, ∀ nm : String,
        ((FileService.upload st now newId file g a).tr)[i]?
            = some (Ev.dbLiveQuery nm) →
        ∃ j : Nat, j < i ∧ ((FileService.upload st now newId file g a).tr)[j]?
          = some (Ev.gcsExists file.filename))
    ∧ (∀ i : Nat, ∀ nm : String, ∀ s : FileStatusEnum,
        ((FileService.upload st now newId file g a).tr)[i]?
            = some (Ev.dbInsert nm s) →
        s = FileStatusEnum.UPLOADED
        ∧ ∃ l k j : Nat, l < k ∧ k < j ∧ j < i
          ∧ ((FileService.upload st now newId file g a).tr)[l]?
              = some (Ev.gcsExists file.filename)
          ∧ ((FileService.upload st now newId file g a).tr)[k]?
              = some (Ev.dbLiveQuery file.filename)
          ∧ ((FileService.upload st now newId file g a).tr)[j]?
              = some (Ev.gcsWrite file.filename)) := by
  rcases upload_tr_cases st now newId file g a with htr | htr | htr <;> rw [htr]
  · refine ⟨rfl, ?_, ?_⟩
    · intro i nm hvt
      match i with
      | 0 => simp at hvt
      | Nat.succ m => simp at hvt
    · intro i nm s hvt
      match i with
      | 0 => simp at hvt
      | Nat.succ m => simp at hvt
  · refine ⟨rfl, ?_, ?_⟩
    · intro i nm hvt
      match i with
      | 0 => simp at hvt
      | 1 => exact ⟨0, Nat.zero_lt_one, rfl⟩
      | Nat.succ (Nat.succ m) => simp at hvt
    · intro i nm s hvt
      match i with
      | 0 => simp at hvt
      | 1 => simp at hvt
      | Nat.succ (Nat.succ m) => simp at hvt
  · refine ⟨rfl, ?_, ?_⟩
    · intro i nm hvt
      match i with
      | 0 => simp at hvt
      | 1 => exact ⟨0, Nat.zero_lt_one, rfl⟩
      | 2 => simp at hvt
      | 3 => simp at hvt
      | 4 => simp at hvt
      | Nat.succ (Nat.succ (Nat.succ (Nat.succ (Nat.succ m)))) => simp at hvt
    · intro i nm s hvt
      match i with
      | 0 => simp at hvt
      | 1 => simp at hvt
      | 2 => simp at hvt
      | 3 =>
          have hvt' : some (Ev.dbInsert file.filename FileStatusEnum.UPLOADED)
              = some (Ev.dbInsert nm s) := hvt
          injection hvt' with hvt''
          injection hvt'' with hnm hs
          exact ⟨hs.symm, 0, 1, 2, by omega, by omega, by omega, rfl, rfl, rfl⟩
      | 4 => simp at hvt
      | Nat.succ (Nat.succ (Nat.succ (Nat.succ (Nat.succ m)))) => simp at hvt

/-- Witness for C7 at a concrete upload: the record insertion sits at index 3 of
the trace, after the blob check, the live-row query, and the blob write. -/
theorem C7_upload_step_order_witness :
    FileStatusEnum.UPLOADED = FileStatusEnum.UPLOADED
    ∧ ∃ l k j : Nat, l < k ∧ k < j ∧ j < 3
      ∧ ((FileService.upload { gcs := [], db := [] } 0 1
          { filename := "report.pdf", size := none, content_type := none }
          true true).tr)[l]? = some (Ev.gcsExists "report.pdf")
      ∧ ((FileService.upload { gcs := [], db := [] } 0 1
          { filename := "report.pdf", size := none, content_type := none }
          true true).tr)[k]? = some (Ev.dbLiveQuery "report.pdf")
      ∧ ((FileService.upload { gcs := [], db := [] } 0 1
          { filename := "report.pdf", size := none, content_type := none }
          true true).tr)[j]? = some (Ev.gcsWrite "report.pdf") :=
  (C7_upload_step_order { gcs := [], db := [] } 0 1
    { filename := "report.pdf", size := none, content_type := none } true true).2.2
    3 "report.pdf" FileStatusEnum.UPLOADED rfl

/-- C9: upload never mutates existing rows; delete stamps only a row whose
deleted_at is null; the expiry-reclaim path only stamps rows returned by the
scan (which filters deleted_at IS NULL — with the primary-key uniqueness of id
that the files table enforces, given as the Nodup hypothesis); the scheduler
pass never reaches its row update at all. Hence a non-null deleted_at is never
cleared or overwritten by any of the four operations. -/
theorem C9_deleted_at_monotonic (st : SysState) (now newId : Nat)
    (file : UploadFile) (g a : Bool) (nm : String) (ct : ContentType) :
    deletedPreserved st.db (FileService.upload st now newId file g a).st.db
    ∧ deletedPreserved st.db (FileService.delete st now nm ct).2.db
    ∧ ((st.db.map fun r => r.id).Nodup →
        deletedPreserved st.db (FileService.get_all_expired st now).1.db)
    ∧ deletedPreserved st.db (Scheduler.delete_old_files st now).1.db := by
  refine ⟨?_, ?_, ?_, ?_⟩
  · have hup : ∃ l, (FileService.upload st now newId file g a).st.db
        = st.db ++ l := by
      unfold FileService.upload
      split
      · exact ⟨[], by simp⟩
      · split
        · exact ⟨[], by simp⟩
        · split
          · exact ⟨_, rfl⟩
          · exact ⟨_, rfl⟩
    obtain ⟨l, hl⟩ := hup
    rw [hl]
    exact deletedPreserved_append st.db l
  · have hdel : (FileService.delete st now nm ct).2.db = st.db
        ∨ (FileService.delete st now nm ct).2.db
          = markDeletedFirst st.db (fullName nm ct) BUCKET_NAME now := by
      simp only [FileService.delete]
      split
      · split
        · exact Or.inr rfl
        · exact Or.inl rfl
      · exact Or.inl rfl
    rcases hdel with hd | hd <;> rw [hd]
    · exact deletedPreserved_refl st.db
    · exact deletedPreserved_markDeletedFirst st.db _ _ now
  · intro hnd
    simp only [FileService.get_all_expired, FileService.remove_all_expired]
    apply deletedPreserved_map
    intro r hr hne
    have hcontains :
        (((expiredQuery st.db now).map fun x => x.id).contains r.id) = false := by
      by_contra hcc
      rw [Bool.not_eq_false] at hcc
      have hmem : r.id ∈ (expiredQuery st.db now).map fun x => x.id :=
        List.elem_iff.mp hcc
      obtain ⟨s, hs, hsid⟩ := List.mem_map.mp hmem
      unfold expiredQuery at hs
      have hsdb : s ∈ st.db := (List.mem_filter.mp hs).1
      have hslive : s.deleted_at = none := by
        have hx := (List.mem_filter.mp hs).2
        simpa using ((Bool.and_eq_true ..).mp hx).2
      have hrs : s = r := List.inj_on_of_nodup_map hnd hsdb hr hsid
      exact hne (hrs ▸ hslive)
    rw [hcontains]
    simp
  · rw [scheduler_db_unchanged]
    exact deletedPreserved_refl st.db

/-- Already-soft-deleted expired row used by C9's witness. -/
def reclaimedRow : FileRecord :=
  { id := 1, file_name := "w.pdf", gcs_uri := none, bucket_name := BUCKET_NAME,
    size := none, content_type := none, public_url := none, version := none,
    created_at := 0, expires_at := 10, deleted_at := some 5, status := .DELETED }

/-- Witness for C9: an already-deleted expired row keeps deleted_at = 5 across an
expiry-reclaim pass. -/
theorem C9_deleted_at_monotonic_witness :
    ∃ r' : FileRecord,
      ((FileService.get_all_expired { gcs := [], db := [reclaimedRow] } 100).1.db)[0]?
        = some r'
      ∧ r'.deleted_at = some 5 :=
  ⟨reclaimedRow, rfl,
    ((C9_deleted_at_monotonic { gcs := [], db := [reclaimedRow] } 100 0
        { filename := "x", size := none, content_type := none } true true
        "x" .PDF).2.2.1 (by decide)).2 0 reclaimedRow reclaimedRow rfl rfl
      (by decide) |>.trans rfl⟩

theorem generate_url_eq_missing (st : SysState) (nm : String) (ct : ContentType)
    (signOk : Bool) (hb : st.gcs.contains (fullName nm ct) = false) :
    FileService.generate_url st nm ct signOk
      = .error Exc.GCSFileDoesNotExistsException := by
  simp only [FileService.generate_url]
  rw [hb]
  rfl

theorem generate_url_eq_ok (st : SysState) (nm : String) (ct : ContentType)
    (hb : st.gcs.contains (fullName nm ct) = true) :
    FileService.generate_url st nm ct true
      = .ok { download_url := Blob.generate_signed_url (fullName nm ct)
                EXPIRATION_SECONDS "GET" none,
              valid_for_seconds := EXPIRATION_SECONDS } := by
  simp only [FileService.generate_url]
  rw [hb]
  rfl

theorem generate_url_eq_sign_failure (st : SysState) (nm : String)
    (ct : ContentType) (hb : st.gcs.contains (fullName nm ct) = true) :
    FileService.generate_url st nm ct false = .error Exc.GenerateURLException := by
  simp only [FileService.generate_url]
  rw [hb]
  rfl

theorem file_extension_length_pos (ct : ContentType) :
    0 < ct.file_extension.length := by
  cases ct <;> decide

theorem fullName_ne_bare (nm : String) (ct : ContentType) : fullName nm ct ≠ nm := by
  intro h
  have hlen := congrArg String.length h
  simp only [fullName, String.length_append] at hlen
  have hpos := file_extension_length_pos ct
  omega

/-- C10: generate_url appends the content-type extension before the existence
check and the signing, exactly as delete does (both key on `fullName`): when the
extended key is absent both raise GCSFileDoesNotExistsException; a successful
response signs a GET URL bound to the extended key; and a blob stored under the
bare name only (no extension) makes generate_url fail with the NotFound kind. -/
theorem C10_generate_url_targets_extended_name (st : SysState) (nm : String)
    (ct : ContentType) (signOk : Bool) :
    (st.gcs.contains (fullName nm ct) = false →
      FileService.generate_url st nm ct signOk
        = .error Exc.GCSFileDoesNotExistsException
      ∧ (FileService.delete st 0 nm ct).1
        = .error Exc.GCSFileDoesNotExistsException)
    ∧ (∀ resp : DownloadURLResponse,
        FileService.generate_url st nm ct signOk = .ok resp →
        resp.download_url.blob_name = fullName nm ct
        ∧ resp.download_url.method = "GET"
        ∧ resp.valid_for_seconds = EXPIRATION_SECONDS)
    ∧ (st.gcs = [nm] →
        FileService.generate_url st nm ct signOk
          = .error Exc.GCSFileDoesNotExistsException
        ∧ Exc.kind .GCSFileDoesNotExistsException = ErrKind.notFound) := by
  refine ⟨?_, ?_, ?_⟩
  · intro hb
    refine ⟨generate_url_eq_missing st nm ct signOk hb, ?_⟩
    rw [delete_eq_blob_missing st 0 nm ct hb]
  · intro resp h
    by_cases hb : st.gcs.contains (fullName nm ct) = true
    · cases signOk with
      | true =>
          rw [generate_url_eq_ok st nm ct hb] at h
          rw [← Except.ok.inj h]
          exact ⟨rfl, rfl, rfl⟩
      | false =>
          rw [generate_url_eq_sign_failure st nm ct hb] at h
          exact Except.noConfusion h
    · rw [Bool.not_eq_true] at hb
      rw [generate_url_eq_missing st nm ct signOk hb] at h
      exact Except.noConfusion h
  · intro hgcs
    have hb : st.gcs.contains (fullName nm ct) = false := by
      rw [hgcs]
      by_contra hcc
      rw [Bool.not_eq_false] at hcc
      have hmem := List.elem_iff.mp hcc
      simp at hmem
      exact fullName_ne_bare nm ct hmem
    exact ⟨generate_url_eq_missing st nm ct signOk hb, rfl⟩

/-- Witness for C10: a blob stored under the bare name "doc" makes
generate_url("doc", PDF) fail with the NotFound kind. -/
theorem C10_generate_url_targets_extended_name_witness :
    FileService.generate_url { gcs := ["doc"], db := [] } "doc" .PDF true
      = .error Exc.GCSFileDoesNotExistsException
    ∧ Exc.kind .GCSFileDoesNotExistsException = ErrKind.notFound :=
  (C10_generate_url_targets_extended_name { gcs := ["doc"], db := [] }
    "doc" .PDF true).2.2 rfl

end GCPBucketOps
